/-
Verification of the makedds image-composition pipeline and DDS container
writer (src/src/main.cpp, src/src/lldatain.cpp, src/include/lldatain.hpp).

The development shallowly embeds the pure computational core of the program:
the DXGI format tables and layout calculator from lldatain.cpp, and the
job-parameter defaulting, header synthesis and surface-scheduling logic from
main.cpp.  Machine integers (size_t, uint32_t) are modelled as Nat; where the
code narrows a size_t into a uint32_t header field the truncation is made
explicit with `% 4294967296`.  While loops are embedded either structurally
or with an explicit iteration budget that dominates the number of iterations
the C loop performs on the same input.
-/
import Mathlib

namespace data

/-! ### DXGI format enumeration (lldatain.hpp, `dxgi_format_e`) -/

def DXGI_FORMAT_UNKNOWN : Nat := 0
def DXGI_FORMAT_R32G32B32A32_TYPELESS : Nat := 1
def DXGI_FORMAT_R32G32B32A32_FLOAT : Nat := 2
def DXGI_FORMAT_R32G32B32A32_UINT : Nat := 3
def DXGI_FORMAT_R32G32B32A32_SINT : Nat := 4
def DXGI_FORMAT_R32G32B32_TYPELESS : Nat := 5
def DXGI_FORMAT_R32G32B32_FLOAT : Nat := 6
def DXGI_FORMAT_R32G32B32_UINT : Nat := 7
def DXGI_FORMAT_R32G32B32_SINT : Nat := 8
def DXGI_FORMAT_R16G16B16A16_TYPELESS : Nat := 9
def DXGI_FORMAT_R16G16B16A16_FLOAT : Nat := 10
def DXGI_FORMAT_R16G16B16A16_UNORM : Nat := 11
def DXGI_FORMAT_R16G16B16A16_UINT : Nat := 12
def DXGI_FORMAT_R16G16B16A16_SNORM : Nat := 13
def DXGI_FORMAT_R16G16B16A16_SINT : Nat := 14
def DXGI_FORMAT_R32G32_TYPELESS : Nat := 15
def DXGI_FORMAT_R32G32_FLOAT : Nat := 16
def DXGI_FORMAT_R32G32_UINT : Nat := 17
def DXGI_FORMAT_R32G32_SINT : Nat := 18
def DXGI_FORMAT_R32G8X24_TYPELESS : Nat := 19
def DXGI_FORMAT_D32_FLOAT_S8X24_UINT : Nat := 20
def DXGI_FORMAT_R32_FLOAT_X8X24_TYPELESS : Nat := 21
def DXGI_FORMAT_X32_TYPELESS_G8X24_UINT : Nat := 22
def DXGI_FORMAT_R10G10B10A2_TYPELESS : Nat := 23
def DXGI_FORMAT_R10G10B10A2_UNORM : Nat := 24
def DXGI_FORMAT_R10G10B10A2_UINT : Nat := 25
def DXGI_FORMAT_R11G11B10_FLOAT : Nat := 26
def DXGI_FORMAT_R8G8B8A8_TYPELESS : Nat := 27
def DXGI_FORMAT_R8G8B8A8_UNORM : Nat := 28
def DXGI_FORMAT_R8G8B8A8_UNORM_SRGB : Nat := 29
def DXGI_FORMAT_R8G8B8A8_UINT : Nat := 30
def DXGI_FORMAT_R8G8B8A8_SNORM : Nat := 31
def DXGI_FORMAT_R8G8B8A8_SINT : Nat := 32
def DXGI_FORMAT_R16G16_TYPELESS : Nat := 33
def DXGI_FORMAT_R16G16_FLOAT : Nat := 34
def DXGI_FORMAT_R16G16_UNORM : Nat := 35
def DXGI_FORMAT_R16G16_UINT : Nat := 36
def DXGI_FORMAT_R16G16_SNORM : Nat := 37
def DXGI_FORMAT_R16G16_SINT : Nat := 38
def DXGI_FORMAT_R32_TYPELESS : Nat := 39
def DXGI_FORMAT_D32_FLOAT : Nat := 40
def DXGI_FORMAT_R32_FLOAT : Nat := 41
def DXGI_FORMAT_R32_UINT : Nat := 42
def DXGI_FORMAT_R32_SINT : Nat := 43
def DXGI_FORMAT_R24G8_TYPELESS : Nat := 44
def DXGI_FORMAT_D24_UNORM_S8_UINT : Nat := 45
def DXGI_FORMAT_R24_UNORM_X8_TYPELESS : Nat := 46
def DXGI_FORMAT_X24_TYPELESS_G8_UINT : Nat := 47
def DXGI_FORMAT_R8G8_TYPELESS : Nat := 48
def DXGI_FORMAT_R8G8_UNORM : Nat := 49
def DXGI_FORMAT_R8G8_UINT : Nat := 50
def DXGI_FORMAT_R8G8_SNORM : Nat := 51
def DXGI_FORMAT_R8G8_SINT : Nat := 52
def DXGI_FORMAT_R16_TYPELESS : Nat := 53
def DXGI_FORMAT_R16_FLOAT : Nat := 54
def DXGI_FORMAT_D16_UNORM : Nat := 55
def DXGI_FORMAT_R16_UNORM : Nat := 56
def DXGI_FORMAT_R16_UINT : Nat := 57
def DXGI_FORMAT_R16_SNORM : Nat := 58
def DXGI_FORMAT_R16_SINT : Nat := 59
def DXGI_FORMAT_R8_TYPELESS : Nat := 60
def DXGI_FORMAT_R8_UNORM : Nat := 61
def DXGI_FORMAT_R8_UINT : Nat := 62
def DXGI_FORMAT_R8_SNORM : Nat := 63
def DXGI_FORMAT_R8_SINT : Nat := 64
def DXGI_FORMAT_A8_UNORM : Nat := 65
def DXGI_FORMAT_R1_UNORM : Nat := 66
def DXGI_FORMAT_R9G9B9E5_SHAREDEXP : Nat := 67
def DXGI_FORMAT_R8G8_B8G8_UNORM : Nat := 68
def DXGI_FORMAT_G8R8_G8B8_UNORM : Nat := 69
def DXGI_FORMAT_BC1_TYPELESS : Nat := 70
def DXGI_FORMAT_BC1_UNORM : Nat := 71
def DXGI_FORMAT_BC1_UNORM_SRGB : Nat := 72
def DXGI_FORMAT_BC2_TYPELESS : Nat := 73
def DXGI_FORMAT_BC2_UNORM : Nat := 74
def DXGI_FORMAT_BC2_UNORM_SRGB : Nat := 75
def DXGI_FORMAT_BC3_TYPELESS : Nat := 76
def DXGI_FORMAT_BC3_UNORM : Nat := 77
def DXGI_FORMAT_BC3_UNORM_SRGB : Nat := 78
def DXGI_FORMAT_BC4_TYPELESS : Nat := 79
def DXGI_FORMAT_BC4_UNORM : Nat := 80
def DXGI_FORMAT_BC4_SNORM : Nat := 81
def DXGI_FORMAT_BC5_TYPELESS : Nat := 82
def DXGI_FORMAT_BC5_UNORM : Nat := 83
def DXGI_FORMAT_BC5_SNORM : Nat := 84
def DXGI_FORMAT_B5G6R5_UNORM : Nat := 85
def DXGI_FORMAT_B5G5R5A1_UNORM : Nat := 86
def DXGI_FORMAT_B8G8R8A8_UNORM : Nat := 87
def DXGI_FORMAT_B8G8R8X8_UNORM : Nat := 88
def DXGI_FORMAT_R10G10B10_XR_BIAS_A2_UNORM : Nat := 89
def DXGI_FORMAT_B8G8R8A8_TYPELESS : Nat := 90
def DXGI_FORMAT_B8G8R8A8_UNORM_SRGB : Nat := 91
def DXGI_FORMAT_B8G8R8X8_TYPELESS : Nat := 92
def DXGI_FORMAT_B8G8R8X8_UNORM_SRGB : Nat := 93
def DXGI_FORMAT_BC6H_TYPELESS : Nat := 94
def DXGI_FORMAT_BC6H_UF16 : Nat := 95
def DXGI_FORMAT_BC6H_SF16 : Nat := 96
def DXGI_FORMAT_BC7_TYPELESS : Nat := 97
def DXGI_FORMAT_BC7_UNORM : Nat := 98
def DXGI_FORMAT_BC7_UNORM_SRGB : Nat := 99
def DXGI_FORMAT_AYUV : Nat := 100
def DXGI_FORMAT_Y410 : Nat := 101
def DXGI_FORMAT_Y416 : Nat := 102
def DXGI_FORMAT_NV12 : Nat := 103
def DXGI_FORMAT_P010 : Nat := 104
def DXGI_FORMAT_P016 : Nat := 105
def DXGI_FORMAT_420_OPAQUE : Nat := 106
def DXGI_FORMAT_YUY2 : Nat := 107
def DXGI_FORMAT_Y210 : Nat := 108
def DXGI_FORMAT_Y216 : Nat := 109
def DXGI_FORMAT_NV11 : Nat := 110
def DXGI_FORMAT_AI44 : Nat := 111
def DXGI_FORMAT_IA44 : Nat := 112
def DXGI_FORMAT_P8 : Nat := 113
def DXGI_FORMAT_A8P8 : Nat := 114
def DXGI_FORMAT_B4G4R4A4_UNORM : Nat := 115

/-! ### Bit flags (lldatain.hpp) -/

def DDPF_NONE : Nat := 0x00000000
def DDPF_ALPHAPIXELS : Nat := 0x00000001
def DDPF_ALPHA : Nat := 0x00000002
def DDPF_FOURCC : Nat := 0x00000004
def DDPF_RGB : Nat := 0x00000040
def DDPF_YUV : Nat := 0x00000200
def DDPF_LUMINANCE : Nat := 0x00020000

def DDSD_NONE : Nat := 0x00000000
def DDSD_CAPS : Nat := 0x00000001
def DDSD_HEIGHT : Nat := 0x00000002
def DDSD_WIDTH : Nat := 0x00000004
def DDSD_PITCH : Nat := 0x00000008
def DDSD_PIXELFORMAT : Nat := 0x00001000
def DDSD_MIPMAPCOUNT : Nat := 0x00020000
def DDSD_LINEARSIZE : Nat := 0x00080000
def DDSD_DEPTH : Nat := 0x00800000

def DDSCAPS_NONE : Nat := 0x00000000
def DDSCAPS_COMPLEX : Nat := 0x00000008
def DDSCAPS_TEXTURE : Nat := 0x00001000
def DDSCAPS_MIPMAP : Nat := 0x00400000

def DDSCAPS2_NONE : Nat := 0x00000000
def DDSCAPS2_CUBEMAP : Nat := 0x00000200
def DDSCAPS2_CUBEMAP_POSITIVEX : Nat := 0x00000400
def DDSCAPS2_CUBEMAP_NEGATIVEX : Nat := 0x00000800
def DDSCAPS2_CUBEMAP_POSITIVEY : Nat := 0x00001000
def DDSCAPS2_CUBEMAP_NEGATIVEY : Nat := 0x00002000
def DDSCAPS2_CUBEMAP_POSITIVEZ : Nat := 0x00004000
def DDSCAPS2_CUBEMAP_NEGATIVEZ : Nat := 0x00008000
def DDSCAPS2_VOLUME : Nat := 0x00200000

def DDS_CUBEMAP_ALLFACES : Nat :=
  DDSCAPS2_CUBEMAP |||
  DDSCAPS2_CUBEMAP_POSITIVEX ||| DDSCAPS2_CUBEMAP_NEGATIVEX |||
  DDSCAPS2_CUBEMAP_POSITIVEY ||| DDSCAPS2_CUBEMAP_NEGATIVEY |||
  DDSCAPS2_CUBEMAP_POSITIVEZ ||| DDSCAPS2_CUBEMAP_NEGATIVEZ

def DDSCAPS3_NONE : Nat := 0x00000000
def DDSCAPS4_NONE : Nat := 0x00000000

def D3D11_RESOURCE_DIMENSION_UNKNOWN : Nat := 0
def D3D11_RESOURCE_DIMENSION_BUFFER : Nat := 1
def D3D11_RESOURCE_DIMENSION_TEXTURE1D : Nat := 2
def D3D11_RESOURCE_DIMENSION_TEXTURE2D : Nat := 3
def D3D11_RESOURCE_DIMENSION_TEXTURE3D : Nat := 4

def D3D11_RESOURCE_MISC_TEXTURECUBE : Nat := 0x00000004

def DDS_ALPHA_MODE_UNKNOWN : Nat := 0
def DDS_ALPHA_MODE_STRAIGHT : Nat := 1
def DDS_ALPHA_MODE_PREMULTIPLIED : Nat := 2
def DDS_ALPHA_MODE_OPAQUE : Nat := 3
def DDS_ALPHA_MODE_CUSTOM : Nat := 4

/-- `fourcc_le` from lldatain.hpp: the four characters packed little-endian. -/
def fourcc_le (a b c d : Char) : Nat :=
  (d.toNat <<< 24) ||| (c.toNat <<< 16) ||| (b.toNat <<< 8) ||| a.toNat

/-! ### Format tables and layout calculator (lldatain.cpp) -/

/-- `data::dds_block_compressed` (lldatain.cpp): true for the BC1..BC7 values. -/
def dds_block_compressed (format : Nat) : Bool :=
  format == DXGI_FORMAT_BC1_TYPELESS ||
  format == DXGI_FORMAT_BC1_UNORM ||
  format == DXGI_FORMAT_BC1_UNORM_SRGB ||
  format == DXGI_FORMAT_BC4_TYPELESS ||
  format == DXGI_FORMAT_BC4_UNORM ||
  format == DXGI_FORMAT_BC4_SNORM ||
  format == DXGI_FORMAT_BC2_TYPELESS ||
  format == DXGI_FORMAT_BC2_UNORM ||
  format == DXGI_FORMAT_BC2_UNORM_SRGB ||
  format == DXGI_FORMAT_BC3_TYPELESS ||
  format == DXGI_FORMAT_BC3_UNORM ||
  format == DXGI_FORMAT_BC3_UNORM_SRGB ||
  format == DXGI_FORMAT_BC5_TYPELESS ||
  format == DXGI_FORMAT_BC5_UNORM ||
  format == DXGI_FORMAT_BC5_SNORM ||
  format == DXGI_FORMAT_BC6H_TYPELESS ||
  format == DXGI_FORMAT_BC6H_UF16 ||
  format == DXGI_FORMAT_BC6H_SF16 ||
  format == DXGI_FORMAT_BC7_TYPELESS ||
  format == DXGI_FORMAT_BC7_UNORM ||
  format == DXGI_FORMAT_BC7_UNORM_SRGB

/-- `data::dds_packed` (lldatain.cpp). -/
def dds_packed (format : Nat) : Bool :=
  format == DXGI_FORMAT_R8G8_B8G8_UNORM ||
  format == DXGI_FORMAT_G8R8_G8B8_UNORM

/-- `data::dds_bits_per_pixel` (lldatain.cpp).  The case groups below mirror
the switch statement in the source, in the same order. -/
def dds_bits_per_pixel (format : Nat) : Nat :=
  if format == DXGI_FORMAT_R32G32B32A32_TYPELESS ||
     format == DXGI_FORMAT_R32G32B32A32_FLOAT ||
     format == DXGI_FORMAT_R32G32B32A32_UINT ||
     format == DXGI_FORMAT_R32G32B32A32_SINT then 128
  else if format == DXGI_FORMAT_R32G32B32_TYPELESS ||
     format == DXGI_FORMAT_R32G32B32_FLOAT ||
     format == DXGI_FORMAT_R32G32B32_UINT ||
     format == DXGI_FORMAT_R32G32B32_SINT then 96
  else if format == DXGI_FORMAT_R16G16B16A16_TYPELESS ||
     format == DXGI_FORMAT_R16G16B16A16_FLOAT ||
     format == DXGI_FORMAT_R16G16B16A16_UNORM ||
     format == DXGI_FORMAT_R16G16B16A16_UINT ||
     format == DXGI_FORMAT_R16G16B16A16_SNORM ||
     format == DXGI_FORMAT_R16G16B16A16_SINT ||
     format == DXGI_FORMAT_R32G32_TYPELESS ||
     format == DXGI_FORMAT_R32G32_FLOAT ||
     format == DXGI_FORMAT_R32G32_UINT ||
     format == DXGI_FORMAT_R32G32_SINT ||
     format == DXGI_FORMAT_R32G8X24_TYPELESS ||
     format == DXGI_FORMAT_D32_FLOAT_S8X24_UINT ||
     format == DXGI_FORMAT_R32_FLOAT_X8X24_TYPELESS ||
     format == DXGI_FORMAT_X32_TYPELESS_G8X24_UINT then 64
  else if format == DXGI_FORMAT_R10G10B10A2_TYPELESS ||
     format == DXGI_FORMAT_R10G10B10A2_UNORM ||
     format == DXGI_FORMAT_R10G10B10A2_UINT ||
     format == DXGI_FORMAT_R11G11B10_FLOAT ||
     format == DXGI_FORMAT_R8G8B8A8_TYPELESS ||
     format == DXGI_FORMAT_R8G8B8A8_UNORM ||
     format == DXGI_FORMAT_R8G8B8A8_UNORM_SRGB ||
     format == DXGI_FORMAT_R8G8B8A8_UINT ||
     format == DXGI_FORMAT_R8G8B8A8_SNORM ||
     format == DXGI_FORMAT_R8G8B8A8_SINT ||
     format == DXGI_FORMAT_R16G16_TYPELESS ||
     format == DXGI_FORMAT_R16G16_FLOAT ||
     format == DXGI_FORMAT_R16G16_UNORM ||
     format == DXGI_FORMAT_R16G16_UINT ||
     format == DXGI_FORMAT_R16G16_SNORM ||
     format == DXGI_FORMAT_R16G16_SINT ||
     format == DXGI_FORMAT_R32_TYPELESS ||
     format == DXGI_FORMAT_D32_FLOAT ||
     format == DXGI_FORMAT_R32_FLOAT ||
     format == DXGI_FORMAT_R32_UINT ||
     format == DXGI_FORMAT_R32_SINT ||
     format == DXGI_FORMAT_R24G8_TYPELESS ||
     format == DXGI_FORMAT_D24_UNORM_S8_UINT ||
     format == DXGI_FORMAT_R24_UNORM_X8_TYPELESS ||
     format == DXGI_FORMAT_X24_TYPELESS_G8_UINT ||
     format == DXGI_FORMAT_R9G9B9E5_SHAREDEXP ||
     format == DXGI_FORMAT_R8G8_B8G8_UNORM ||
     format == DXGI_FORMAT_G8R8_G8B8_UNORM ||
     format == DXGI_FORMAT_B8G8R8A8_UNORM ||
     format == DXGI_FORMAT_B8G8R8X8_UNORM ||
     format == DXGI_FORMAT_R10G10B10_XR_BIAS_A2_UNORM ||
     format == DXGI_FORMAT_B8G8R8A8_TYPELESS ||
     format == DXGI_FORMAT_B8G8R8A8_UNORM_SRGB ||
     format == DXGI_FORMAT_B8G8R8X8_TYPELESS ||
     format == DXGI_FORMAT_B8G8R8X8_UNORM_SRGB then 32
  else if format == DXGI_FORMAT_R8G8_TYPELESS ||
     format == DXGI_FORMAT_R8G8_UNORM ||
     format == DXGI_FORMAT_R8G8_UINT ||
     format == DXGI_FORMAT_R8G8_SNORM ||
     format == DXGI_FORMAT_R8G8_SINT ||
     format == DXGI_FORMAT_R16_TYPELESS ||
     format == DXGI_FORMAT_R16_FLOAT ||
     format == DXGI_FORMAT_D16_UNORM ||
     format == DXGI_FORMAT_R16_UNORM ||
     format == DXGI_FORMAT_R16_UINT ||
     format == DXGI_FORMAT_R16_SNORM ||
     format == DXGI_FORMAT_R16_SINT ||
     format == DXGI_FORMAT_B5G6R5_UNORM ||
     format == DXGI_FORMAT_B5G5R5A1_UNORM ||
     format == DXGI_FORMAT_B4G4R4A4_UNORM then 16
  else if format == DXGI_FORMAT_R8_TYPELESS ||
     format == DXGI_FORMAT_R8_UNORM ||
     format == DXGI_FORMAT_R8_UINT ||
     format == DXGI_FORMAT_R8_SNORM ||
     format == DXGI_FORMAT_R8_SINT ||
     format == DXGI_FORMAT_A8_UNORM then 8
  else if format == DXGI_FORMAT_R1_UNORM then 1
  else if format == DXGI_FORMAT_BC1_TYPELESS ||
     format == DXGI_FORMAT_BC1_UNORM ||
     format == DXGI_FORMAT_BC1_UNORM_SRGB ||
     format == DXGI_FORMAT_BC4_TYPELESS ||
     format == DXGI_FORMAT_BC4_UNORM ||
     format == DXGI_FORMAT_BC4_SNORM then 4
  else if format == DXGI_FORMAT_BC2_TYPELESS ||
     format == DXGI_FORMAT_BC2_UNORM ||
     format == DXGI_FORMAT_BC2_UNORM_SRGB ||
     format == DXGI_FORMAT_BC3_TYPELESS ||
     format == DXGI_FORMAT_BC3_UNORM ||
     format == DXGI_FORMAT_BC3_UNORM_SRGB ||
     format == DXGI_FORMAT_BC5_TYPELESS ||
     format == DXGI_FORMAT_BC5_UNORM ||
     format == DXGI_FORMAT_BC5_SNORM ||
     format == DXGI_FORMAT_BC6H_TYPELESS ||
     format == DXGI_FORMAT_BC6H_UF16 ||
     format == DXGI_FORMAT_BC6H_SF16 ||
     format == DXGI_FORMAT_BC7_TYPELESS ||
     format == DXGI_FORMAT_BC7_UNORM ||
     format == DXGI_FORMAT_BC7_UNORM_SRGB then 8
  else 0

/-- `data::dds_bytes_per_block` (lldatain.cpp). -/
def dds_bytes_per_block (format : Nat) : Nat :=
  if format == DXGI_FORMAT_BC1_TYPELESS ||
     format == DXGI_FORMAT_BC1_UNORM ||
     format == DXGI_FORMAT_BC1_UNORM_SRGB ||
     format == DXGI_FORMAT_BC4_TYPELESS ||
     format == DXGI_FORMAT_BC4_UNORM ||
     format == DXGI_FORMAT_BC4_SNORM then 8
  else if format == DXGI_FORMAT_BC2_TYPELESS ||
     format == DXGI_FORMAT_BC2_UNORM ||
     format == DXGI_FORMAT_BC2_UNORM_SRGB ||
     format == DXGI_FORMAT_BC3_TYPELESS ||
     format == DXGI_FORMAT_BC3_UNORM ||
     format == DXGI_FORMAT_BC3_UNORM_SRGB ||
     format == DXGI_FORMAT_BC5_TYPELESS ||
     format == DXGI_FORMAT_BC5_UNORM ||
     format == DXGI_FORMAT_BC5_SNORM ||
     format == DXGI_FORMAT_BC6H_TYPELESS ||
     format == DXGI_FORMAT_BC6H_UF16 ||
     format == DXGI_FORMAT_BC6H_SF16 ||
     format == DXGI_FORMAT_BC7_TYPELESS ||
     format == DXGI_FORMAT_BC7_UNORM ||
     format == DXGI_FORMAT_BC7_UNORM_SRGB then 16
  else 0

/-- `data::dds_pitch` (lldatain.cpp):
block-compressed rows use `max2<size_t>(1, (width + 3) / 4)` blocks of
`dds_bytes_per_block` bytes; packed formats use `((width + 1) >> 1) * 4`;
everything else uses `(width * dds_bits_per_pixel(format) + 7) / 8`. -/
def dds_pitch (format : Nat) (width : Nat) : Nat :=
  if dds_block_compressed format then
    max 1 ((width + 3) / 4) * dds_bytes_per_block format
  else if dds_packed format then
    ((width + 1) >>> 1) * 4
  else
    (width * dds_bits_per_pixel format + 7) / 8

/-! ### Header structures (lldatain.hpp) -/

/-- `data::dds_pixelformat_t`: the 32-byte legacy pixel-format descriptor
embedded in the base header.  All fields are uint32 values. -/
structure dds_pixelformat_t where
  Size : Nat
  Flags : Nat
  FourCC : Nat
  RGBBitCount : Nat
  BitMaskR : Nat
  BitMaskG : Nat
  BitMaskB : Nat
  BitMaskA : Nat
deriving DecidableEq, Repr

/-- `data::dds_header_t`: the 124-byte base header (Reserved1 is 11 zero
words in the file; it is omitted here because the writer never assigns it). -/
structure dds_header_t where
  Size : Nat
  Flags : Nat
  Height : Nat
  Width : Nat
  Pitch : Nat
  Depth : Nat
  Levels : Nat
  Format : dds_pixelformat_t
  Caps : Nat
  Caps2 : Nat
  Caps3 : Nat
  Caps4 : Nat
  Reserved2 : Nat
deriving DecidableEq, Repr

/-- `data::dds_header_dxt10_t`: the 20-byte extended header. -/
structure dds_header_dxt10_t where
  Format : Nat
  Dimension : Nat
  Flags : Nat
  ArraySize : Nat
  Flags2 : Nat
deriving DecidableEq, Repr

end data

/-! ### main.cpp data types -/

/-- `dds_params_t` (main.cpp): the job description.  The string-valued
fields (OutputFile, JsonBuffer, SourceFiles) carry no information used by
the computations verified here; the source-file list is supplied to the
scheduler models separately as a list of decode results. -/
structure dds_params_t where
  Width : Nat
  Height : Nat
  BaseWidth : Nat
  BaseHeight : Nat
  MaxMipLevels : Nat
  ArraySize : Nat
  Format : Nat
  AlphaMode : Nat
  Mipmaps : Bool
  Cubemap : Bool
  Volume : Bool
  ForcePow2 : Bool
  SourceCount : Nat
  SourceIndex : Nat
deriving DecidableEq, Repr

/-- `image_info_t` (main.cpp): a decoded source image.  A successfully
loaded image always has a non-NULL pixel pointer, so loads are modelled as
`Option image_info_t` and the Pixels field itself is not carried. -/
structure image_info_t where
  Width : Nat
  Height : Nat
  Channels : Nat
  Format : Nat
  HDR : Bool
deriving DecidableEq, Repr

/-- Truncation of a size_t value stored into a uint32_t header field. -/
def u32 (n : Nat) : Nat := n % 4294967296

/-- `EXIT_SUCCESS` as used by `exit()` in main.cpp. -/
def EXIT_SUCCESS : Nat := 0

/-- `EXIT_FAILURE` as used by `exit()` in main.cpp. -/
def EXIT_FAILURE : Nat := 1

/-- Bytes of the reserved header region: magic (4) + `dds_header_t` (124)
+ `dds_header_dxt10_t` (20).  main.cpp seeks to this offset before the
scheduler writes surface bytes, and the finished file is this prefix
followed by the surface payload. -/
def HEADER_PREFIX_BYTES : Nat := 4 + 124 + 20

/-! ### Decoder front end (main.cpp `load_image`, LDR branch) -/

/-- The LDR branch of `load_image` (main.cpp).  `first` is the result of
`stbi_load(infile, &w, &h, &n, 0)` (returning the actual channel count) and
`reload4` the result of the `stbi_load(infile, &w, &h, &n, 4)` call issued
when the first decode reported exactly 3 channels; in that case `n` is
forced to 4.  A `none` decode result models a NULL pixel pointer, for which
`load_image` reports failure. -/
def load_image_ldr (first : Option (Nat × Nat × Nat))
    (reload4 : Option (Nat × Nat)) : Option image_info_t :=
  match first with
  | none => none
  | some (w, h, n) =>
    if n = 3 then
      match reload4 with
      | none => none
      | some (w4, h4) =>
        some { Width := w4, Height := h4, Channels := 4,
               Format := data.DXGI_FORMAT_R8G8B8A8_UNORM, HDR := false }
    else if n = 1 then
      some { Width := w, Height := h, Channels := 1,
             Format := data.DXGI_FORMAT_R8_UNORM, HDR := false }
    else if n = 2 then
      some { Width := w, Height := h, Channels := 2,
             Format := data.DXGI_FORMAT_R8G8_UNORM, HDR := false }
    else if n = 4 then
      some { Width := w, Height := h, Channels := 4,
             Format := data.DXGI_FORMAT_R8G8B8A8_UNORM, HDR := false }
    else none

/-! ### Parameter modification (main.cpp `pow2_ge`, `modify_params`) -/

/-- The `while (x < value) x <<= 1;` loop of `pow2_ge` (main.cpp), embedded
with an iteration budget.  Every call site passes `min = 1`, from which the
loop doubles `x` and therefore performs at most `value` iterations, so a
budget of `value` steps reproduces the loop exactly on all reachable
inputs. -/
def pow2_ge_loop (fuel : Nat) (value : Nat) (x : Nat) : Nat :=
  match fuel with
  | 0 => x
  | f + 1 => if x < value then pow2_ge_loop f value (x <<< 1) else x

/-- `pow2_ge(value, min)` (main.cpp). -/
def pow2_ge (value : Nat) (min : Nat) : Nat :=
  pow2_ge_loop value value min

/-- The mip-count loop shared by `modify_params`, `write_cubemap_image` and
`write_array_image` (main.cpp):

```
while (lw > 1 || lh > 1) { count++; lw >>= 1; if (lw == 0) lw = 1;
                                    lh >>= 1; if (lh == 0) lh = 1; }
```

embedded with an iteration budget.  Each iteration at least halves a
dimension that is > 1 (and pins dimensions ≤ 1 at 1), so the loop performs
fewer than `lw + lh + 1` iterations; the callers below pass that budget, and
the result is then the exact iteration count of the C loop. -/
def mip_count_loop (fuel : Nat) (lw lh : Nat) : Nat :=
  match fuel with
  | 0 => 0
  | f + 1 =>
    if lw > 1 || lh > 1 then
      mip_count_loop f (max (lw >>> 1) 1) (max (lh >>> 1) 1) + 1
    else 0

/-- The `if (params.MaxMipLevels == 0)` resolution block that appears in
`modify_params`, `write_cubemap_image` and `write_array_image` (main.cpp):
count halvings of (Width, Height) down to (1, 1), then add one for the base
level. -/
def resolve_mip_levels (p : dds_params_t) : dds_params_t :=
  if p.MaxMipLevels = 0 then
    { p with MaxMipLevels := mip_count_loop (p.Width + p.Height + 1) p.Width p.Height + 1 }
  else p

/-- `modify_params` (main.cpp).  `mipmapFlag` and `pow2Flag` record whether
`--mipmap` / `--pow2` occur among the command-line arguments. -/
def modify_params (mipmapFlag pow2Flag : Bool) (p : dds_params_t) : dds_params_t :=
  let p := if mipmapFlag then { p with Mipmaps := true, MaxMipLevels := 0 } else p
  let p := if pow2Flag then { p with ForcePow2 := true } else p
  let p := if p.ForcePow2 && p.Width != 0 && p.Height != 0 then
             { p with Width := pow2_ge p.Width 1, Height := pow2_ge p.Height 1 }
           else p
  resolve_mip_levels p

/-! ### Header synthesis (main.cpp) -/

/-- The FourCC value `fourcc_le('D','X','1','0')` assigned by
`init_dds_pixelformat` before its switch statement and never overwritten. -/
def FOURCC_DX10 : Nat := data.fourcc_le 'D' 'X' '1' '0'

/-- `init_dds_pixelformat` (main.cpp).  The function first assigns
`Flags = DDPF_FOURCC` and `FourCC = fourcc_le('D','X','1','0')`, then a
switch on `params.Format` assigns Flags, RGBBitCount and the four masks in
every branch (including the default branch), leaving only Size and FourCC
from the initial assignments.  The branches below mirror the source's case
groups in order. -/
def init_dds_pixelformat (p : dds_params_t) : data.dds_pixelformat_t :=
  let mk : Nat → Nat → Nat → Nat → Nat → Nat → data.dds_pixelformat_t :=
    fun flags bits r g b a =>
      { Size := 32, Flags := flags, FourCC := FOURCC_DX10, RGBBitCount := bits,
        BitMaskR := r, BitMaskG := g, BitMaskB := b, BitMaskA := a }
  if p.Format == data.DXGI_FORMAT_R10G10B10A2_TYPELESS ||
     p.Format == data.DXGI_FORMAT_R10G10B10A2_UNORM ||
     p.Format == data.DXGI_FORMAT_R10G10B10A2_UINT ||
     p.Format == data.DXGI_FORMAT_R10G10B10_XR_BIAS_A2_UNORM then
    mk (data.DDPF_RGB ||| data.DDPF_ALPHAPIXELS) 32 0x000003FF 0x000FFC00 0x3FF00000 0xC0000000
  else if p.Format == data.DXGI_FORMAT_R8G8B8A8_TYPELESS ||
     p.Format == data.DXGI_FORMAT_R8G8B8A8_UNORM ||
     p.Format == data.DXGI_FORMAT_R8G8B8A8_UNORM_SRGB ||
     p.Format == data.DXGI_FORMAT_R8G8B8A8_UINT ||
     p.Format == data.DXGI_FORMAT_R8G8B8A8_SNORM ||
     p.Format == data.DXGI_FORMAT_R8G8B8A8_SINT then
    mk (data.DDPF_RGB ||| data.DDPF_ALPHAPIXELS) 32 0x000000FF 0x0000FF00 0x00FF0000 0xFF000000
  else if p.Format == data.DXGI_FORMAT_R16G16_TYPELESS then
    mk data.DDPF_RGB 32 0x0000FFFF 0xFFFF0000 0x00000000 0x00000000
  else if p.Format == data.DXGI_FORMAT_R32_TYPELESS ||
     p.Format == data.DXGI_FORMAT_R32_UINT ||
     p.Format == data.DXGI_FORMAT_R32_SINT then
    mk data.DDPF_RGB 32 0xFFFFFFFF 0x00000000 0x00000000 0x00000000
  else if p.Format == data.DXGI_FORMAT_R24G8_TYPELESS then
    mk (data.DDPF_LUMINANCE ||| data.DDPF_ALPHAPIXELS) 32 0x00FFFFFF 0x00000000 0x00000000 0xFF000000
  else if p.Format == data.DXGI_FORMAT_R8G8_TYPELESS ||
     p.Format == data.DXGI_FORMAT_R8G8_UNORM ||
     p.Format == data.DXGI_FORMAT_R8G8_UINT ||
     p.Format == data.DXGI_FORMAT_R8G8_SNORM ||
     p.Format == data.DXGI_FORMAT_R8G8_SINT then
    mk (data.DDPF_LUMINANCE ||| data.DDPF_ALPHAPIXELS) 16 0x000000FF 0x00000000 0x00000000 0x0000FF00
  else if p.Format == data.DXGI_FORMAT_A8P8 then
    mk (data.DDPF_LUMINANCE ||| data.DDPF_ALPHAPIXELS) 16 0x0000FF00 0x00000000 0x00000000 0x000000FF
  else if p.Format == data.DXGI_FORMAT_R16_TYPELESS ||
     p.Format == data.DXGI_FORMAT_R16_UNORM ||
     p.Format == data.DXGI_FORMAT_R16_UINT ||
     p.Format == data.DXGI_FORMAT_R16_SNORM ||
     p.Format == data.DXGI_FORMAT_R16_SINT then
    mk data.DDPF_LUMINANCE 16 0x0000FFFF 0x00000000 0x00000000 0x00000000
  else if p.Format == data.DXGI_FORMAT_R8_TYPELESS ||
     p.Format == data.DXGI_FORMAT_R8_UNORM ||
     p.Format == data.DXGI_FORMAT_R8_UINT ||
     p.Format == data.DXGI_FORMAT_R8_SNORM ||
     p.Format == data.DXGI_FORMAT_R8_SINT ||
     p.Format == data.DXGI_FORMAT_A8_UNORM ||
     p.Format == data.DXGI_FORMAT_P8 then
    mk data.DDPF_LUMINANCE 8 0x000000FF 0x00000000 0x00000000 0x00000000
  else if p.Format == data.DXGI_FORMAT_R24_UNORM_X8_TYPELESS then
    mk data.DDPF_RGB 32 0x00FFFFFF 0x00000000 0x00000000 0x00000000
  else if p.Format == data.DXGI_FORMAT_X24_TYPELESS_G8_UINT then
    mk data.DDPF_ALPHA 32 0x00000000 0x00000000 0x00000000 0xFF000000
  else if p.Format == data.DXGI_FORMAT_R1_UNORM then
    mk data.DDPF_ALPHA 1 0x00000000 0x00000000 0x00000000 0x00000001
  else if p.Format == data.DXGI_FORMAT_R8G8_B8G8_UNORM then
    mk data.DDPF_RGB 32 0x000000FF 0x0000FF00 0x00FF0000 0x0000FF00
  else if p.Format == data.DXGI_FORMAT_G8R8_G8B8_UNORM then
    mk data.DDPF_RGB 32 0x0000FF00 0x000000FF 0x0000FF00 0x00FF0000
  else if p.Format == data.DXGI_FORMAT_B8G8R8A8_TYPELESS ||
     p.Format == data.DXGI_FORMAT_B8G8R8A8_UNORM ||
     p.Format == data.DXGI_FORMAT_B8G8R8A8_UNORM_SRGB then
    mk (data.DDPF_RGB ||| data.DDPF_ALPHAPIXELS) 32 0x00FF0000 0x0000FF00 0x000000FF 0xFF000000
  else if p.Format == data.DXGI_FORMAT_B8G8R8X8_TYPELESS ||
     p.Format == data.DXGI_FORMAT_B8G8R8X8_UNORM ||
     p.Format == data.DXGI_FORMAT_B8G8R8X8_UNORM_SRGB then
    mk data.DDPF_RGB 32 0x00FF0000 0x0000FF00 0x000000FF 0x00000000
  else if p.Format == data.DXGI_FORMAT_R9G9B9E5_SHAREDEXP then
    mk (data.DDPF_RGB ||| data.DDPF_ALPHAPIXELS) 32 0x000001FF 0x0003FE00 0x07FC0000 0xF8000000
  else if p.Format == data.DXGI_FORMAT_B5G6R5_UNORM then
    mk data.DDPF_RGB 16 0x0000F800 0x000007E0 0x00000001 0x00000000
  else if p.Format == data.DXGI_FORMAT_B5G5R5A1_UNORM then
    mk (data.DDPF_RGB ||| data.DDPF_ALPHAPIXELS) 16 0x00007C00 0x000003E0 0x00000001 0x00008000
  else if p.Format == data.DXGI_FORMAT_B4G4R4A4_UNORM then
    mk (data.DDPF_RGB ||| data.DDPF_ALPHAPIXELS) 16 0x00000F00 0x000000F0 0x0000000F 0x0000F000
  else
    mk data.DDPF_NONE 0 0x00000000 0x00000000 0x00000000 0x00000000

/-- `init_dds_header` (main.cpp).  Width, Height, Pitch, Depth and Levels
are size_t values narrowed into uint32_t fields; `Depth` is assigned from
`params.SourceCount` and `Levels` from `params.MaxMipLevels`. -/
def init_dds_header (p : dds_params_t) : data.dds_header_t :=
  let flags0 := data.DDSD_CAPS ||| data.DDSD_HEIGHT ||| data.DDSD_WIDTH |||
                data.DDSD_PIXELFORMAT ||| data.DDSD_MIPMAPCOUNT
  let flags1 := if p.Volume then flags0 ||| data.DDSD_DEPTH else flags0
  let flags  := if data.dds_block_compressed p.Format then flags1 ||| data.DDSD_LINEARSIZE
                else flags1 ||| data.DDSD_PITCH
  let caps0 := data.DDSCAPS_TEXTURE
  let caps1 := if p.Mipmaps then caps0 ||| data.DDSCAPS_COMPLEX ||| data.DDSCAPS_MIPMAP else caps0
  let caps  := if p.Cubemap then caps1 ||| data.DDSCAPS_COMPLEX else caps1
  let caps2a := if p.Cubemap then data.DDSCAPS2_NONE ||| data.DDS_CUBEMAP_ALLFACES
                else data.DDSCAPS2_NONE
  let caps2  := if p.Volume then caps2a ||| data.DDSCAPS2_VOLUME else caps2a
  { Size := 124
    Flags := flags
    Height := u32 p.Height
    Width := u32 p.Width
    Pitch := u32 (data.dds_pitch p.Format p.Width)
    Depth := u32 p.SourceCount
    Levels := u32 p.MaxMipLevels
    Format := init_dds_pixelformat p
    Caps := caps
    Caps2 := caps2
    Caps3 := data.DDSCAPS3_NONE
    Caps4 := data.DDSCAPS4_NONE
    Reserved2 := 0 }

/-- `init_dds_header_dxt10` (main.cpp). -/
def init_dds_header_dxt10 (p : dds_params_t) : data.dds_header_dxt10_t :=
  let dimFlags : Nat × Nat :=
    if p.Volume then (data.D3D11_RESOURCE_DIMENSION_TEXTURE3D, 0)
    else if p.Cubemap then
      (data.D3D11_RESOURCE_DIMENSION_TEXTURE2D, data.D3D11_RESOURCE_MISC_TEXTURECUBE)
    else if p.BaseWidth = 1 || p.BaseHeight = 1 then
      (data.D3D11_RESOURCE_DIMENSION_TEXTURE1D, 0)
    else (data.D3D11_RESOURCE_DIMENSION_TEXTURE2D, 0)
  { Format := p.Format
    Dimension := dimFlags.1
    Flags := dimFlags.2
    ArraySize := u32 p.ArraySize
    Flags2 := p.AlphaMode }

/-! ### Surface scheduler (main.cpp)

The scheduler is driven by `load_next_source`, which consumes the source
list through `params.SourceIndex`.  Decode results are supplied as a
`List (Option image_info_t)`: entry `i` is the outcome of `load_image` on
`SourceFiles[i]` (`none` = decode failure).  `resize_image` fails only when
`malloc` fails; allocation failure is not modelled, so in this embedding a
resample always succeeds. -/

/-- `load_next_source` (main.cpp): returns false (here `none`) when
`SourceIndex == SourceCount`, otherwise loads `SourceFiles[SourceIndex++]`.
The index advances whether or not the decode succeeds. -/
def load_next_source (srcs : List (Option image_info_t)) (p : dds_params_t) :
    Option image_info_t × dds_params_t :=
  if p.SourceIndex = p.SourceCount then (none, p)
  else ((srcs.getD p.SourceIndex none), { p with SourceIndex := p.SourceIndex + 1 })

/-- The first-source defaulting block shared verbatim by
`write_cubemap_image` (lines 1380-1407) and `write_array_image`
(lines 1452-1479) in main.cpp: inherit Width/Height/Format/AlphaMode from
the first loaded image, record the base dimensions, and resolve
`MaxMipLevels == 0` to a full chain. -/
def default_from_source (p : dds_params_t) (img : image_info_t) : dds_params_t :=
  let p := if p.Width = 0 then { p with Width := img.Width } else p
  let p := if p.Height = 0 then { p with Height := img.Height } else p
  let p := { p with BaseWidth := img.Width, BaseHeight := img.Height }
  let p := if p.Format = data.DXGI_FORMAT_UNKNOWN then { p with Format := img.Format } else p
  let p := if p.AlphaMode = data.DDS_ALPHA_MODE_UNKNOWN then
             { p with AlphaMode := if img.Channels = 4 then data.DDS_ALPHA_MODE_PREMULTIPLIED
                                   else data.DDS_ALPHA_MODE_OPAQUE }
           else p
  resolve_mip_levels p

/-- Dimension of mip level `i` as computed inside the mip loop of
`write_image_chain` (main.cpp): `lw = Width >> i; if (lw < 1) lw = 1;`. -/
def level_dim (base : Nat) (i : Nat) : Nat := max 1 (base >>> i)

/-- Byte count of the `fwrite` calls issued for mip levels `1 .. count` by
`write_image_chain` (main.cpp): each level `i` writes
`dds_pitch(Format, lw) * lh` bytes. -/
def mip_levels_bytes (p : dds_params_t) : Nat → Nat
  | 0 => 0
  | k + 1 =>
    mip_levels_bytes p k +
      data.dds_pitch p.Format (level_dim p.Width (k + 1)) * level_dim p.Height (k + 1)

/-- Total pixel bytes written by one `write_image_chain` call (main.cpp):
the base level writes `dds_pitch(Format, Width) * Height` bytes, and when
`Mipmaps && MaxMipLevels > 1` the loop adds levels `1 .. MaxMipLevels-1`. -/
def write_image_chain_bytes (p : dds_params_t) : Nat :=
  data.dds_pitch p.Format p.Width * p.Height +
    (if p.Mipmaps && decide (p.MaxMipLevels > 1) then
       mip_levels_bytes p (p.MaxMipLevels - 1)
     else 0)

/-- Success of `write_image_chain` (main.cpp): it returns false only when
the base image has a NULL pixel pointer or a resample allocation fails;
with allocation failure not modelled, it succeeds exactly when a loaded
image is passed in. -/
def write_image_chain_ok (base : Option image_info_t) : Bool :=
  base.isSome

/-- The `for (size_t i = 0; i < 6; ++i)` body of `write_cubemap_image`
(main.cpp), returning (result, final params, number of faces whose chain
was written).  When `load_next_source` fails the source contains no `else`
branch: the face is skipped silently and the loop continues. -/
def cubemap_face_loop (srcs : List (Option image_info_t)) :
    Nat → dds_params_t → Nat → Bool × dds_params_t × Nat
  | 0, p, written => (true, p, written)
  | n + 1, p, written =>
    let firstFace := p.SourceIndex = 0
    match load_next_source srcs p with
    | (some face, p1) =>
      let p2 := if firstFace then default_from_source p1 face else p1
      if write_image_chain_ok (some face) then
        cubemap_face_loop srcs n p2 (written + 1)
      else (false, p2, written)
    | (none, p1) =>
      -- no else branch in the source: continue with the next face.
      cubemap_face_loop srcs n p1 written

/-- `write_cubemap_image` (main.cpp): six iterations of the face loop. -/
def write_cubemap_image (srcs : List (Option image_info_t)) (p : dds_params_t) :
    Bool × dds_params_t × Nat :=
  cubemap_face_loop srcs 6 p 0

/-- The non-cubemap branch of `write_array_image` (main.cpp), returning
(result, final params, number of elements whose chain was written).  The
boolean argument tracks `i == 0`; a failed load aborts with an error. -/
def array_element_loop (srcs : List (Option image_info_t)) :
    Nat → dds_params_t → Nat → Bool → Bool × dds_params_t × Nat
  | 0, p, written, _ => (true, p, written)
  | n + 1, p, written, firstElem =>
    match load_next_source srcs p with
    | (some img, p1) =>
      let p2 := if firstElem then default_from_source p1 img else p1
      if write_image_chain_ok (some img) then
        array_element_loop srcs n p2 (written + 1) false
      else (false, p2, written)
    | (none, p1) => (false, p1, written)

/-- The non-cubemap branch of `write_array_image` (main.cpp): reset
`SourceIndex` to 0 and write `ArraySize` elements. -/
def write_array_image_noncube (srcs : List (Option image_info_t)) (p : dds_params_t) :
    Bool × dds_params_t × Nat :=
  array_element_loop srcs p.ArraySize { p with SourceIndex := 0 } 0 true

/-! ### The entry point (main.cpp `main`) -/

/-- The exit-code skeleton of `main` (main.cpp).  The arguments record the
outcome of each test `main` performs, in program order: `argc >= 3`, the
count of path-like arguments, the result of `params_from_path`, of
`fopen`, and of the initial `fseek`.  `schedResult` is the value stored in
the local `bool res` from `write_image_chain` / `write_volume_image` /
`write_array_image`; `main` assigns it but never reads it, and after the
scheduler runs it unconditionally writes the headers and calls
`exit(EXIT_SUCCESS)`. -/
def main_exit (argcOk : Bool) (pathCount : Nat)
    (paramsOk openOk seekOk schedResult : Bool) : Nat :=
  if !argcOk then EXIT_FAILURE
  else if pathCount < 2 then EXIT_FAILURE
  else if !paramsOk then EXIT_FAILURE
  else if !openOk then EXIT_FAILURE
  else if !seekOk then EXIT_FAILURE
  else
    -- bool res = ...; the value is never examined.
    let _res := schedResult
    EXIT_SUCCESS

/-! ### Specification-side formulas

These definitions transcribe formulas from the specification text, for
comparison against the code-derived definitions above.  `ceil_div a b` is
the exact ceiling of the rational a/b. -/

/-- Ceiling division on naturals: `ceil_div a b = ⌈a / b⌉`. -/
def ceil_div (a b : Nat) : Nat := (a + b - 1) / b

/-- The pitch formula exactly as the specification states it
(`pitch(format, width)` in spec §4.2): `max(1, ⌈width/4⌉) · block_bytes`
for block-compressed formats, `⌈(width+1)/2⌉ · 4` for packed formats, and
`⌈(width · bpp)/8⌉` otherwise. -/
def pitch_spec_literal (format width : Nat) : Nat :=
  if data.dds_block_compressed format then
    max 1 (ceil_div width 4) * data.dds_bytes_per_block format
  else if data.dds_packed format then
    ceil_div (width + 1) 2 * 4
  else
    ceil_div (width * data.dds_bits_per_pixel format) 8

/-- The pitch formula with the packed clause corrected to what the code
computes: `⌊(width+1)/2⌋ · 4`, i.e. `⌈width/2⌉ · 4`.  The other two clauses
are unchanged from the specification. -/
def pitch_spec_amended (format width : Nat) : Nat :=
  if data.dds_block_compressed format then
    max 1 (ceil_div width 4) * data.dds_bytes_per_block format
  else if data.dds_packed format then
    ceil_div width 2 * 4
  else
    ceil_div (width * data.dds_bits_per_pixel format) 8

/-- Byte count of one emitted surface as the specification states it
(spec §3 invariant 6 / §8): `pitch(format, lw) · vertical_block_count · ld`
with `vertical_block_count = ⌈lh/4⌉` for block-compressed formats and `lh`
otherwise. -/
def surface_bytes_spec (format lw lh ld : Nat) : Nat :=
  data.dds_pitch format lw *
    (if data.dds_block_compressed format then ceil_div lh 4 else lh) * ld

/-! ### Concrete job configurations used by the theorems -/

/-- A decoded 4-channel LDR source image of the given dimensions. -/
def img_rgba (w h : Nat) : image_info_t :=
  { Width := w, Height := h, Channels := 4,
    Format := data.DXGI_FORMAT_R8G8B8A8_UNORM, HDR := false }

/-- The parameters of a single-source job after parsing: dimensions taken
from (or matching) the source, one mip level, one array element, no
shape flags.  For a raw image file this is the `params_from_path` result
(with the format inferred from a 4-channel source); for a JSON manifest
naming one source and an explicit `Format`, the same shape with that
format. -/
def single_image_params (format w h : Nat) : dds_params_t :=
  { Width := w, Height := h, BaseWidth := w, BaseHeight := h,
    MaxMipLevels := 1, ArraySize := 1, Format := format,
    AlphaMode := data.DDS_ALPHA_MODE_PREMULTIPLIED,
    Mipmaps := false, Cubemap := false, Volume := false, ForcePow2 := false,
    SourceCount := 1, SourceIndex := 1 }

/-- Parameters produced by `params_from_json` for a six-source cubemap
manifest that leaves dimensions, format and alpha mode unspecified, at the
moment `write_array_image` has reset `SourceIndex` to 0 and invokes
`write_cubemap_image`. -/
def cubemap_json_params : dds_params_t :=
  { Width := 0, Height := 0, BaseWidth := 0, BaseHeight := 0,
    MaxMipLevels := 1, ArraySize := 1, Format := data.DXGI_FORMAT_UNKNOWN,
    AlphaMode := data.DDS_ALPHA_MODE_UNKNOWN,
    Mipmaps := false, Cubemap := true, Volume := false, ForcePow2 := false,
    SourceCount := 6, SourceIndex := 0 }

/-- Six cubemap face sources that all decode successfully. -/
def cube_srcs_ok : List (Option image_info_t) :=
  [some (img_rgba 2 2), some (img_rgba 2 2), some (img_rgba 2 2),
   some (img_rgba 2 2), some (img_rgba 2 2), some (img_rgba 2 2)]

/-- Six cubemap face sources of which the third (face +Y) fails to
decode. -/
def cube_srcs_bad_face : List (Option image_info_t) :=
  [some (img_rgba 2 2), some (img_rgba 2 2), none,
   some (img_rgba 2 2), some (img_rgba 2 2), some (img_rgba 2 2)]

/-- Parameters produced by `params_from_json` for a two-source 2D array
manifest with `Mipmaps = true`, `MaxMipLevels = 0` ("all") and no explicit
dimensions or format; `ArraySize` has been defaulted to the source count. -/
def array_json_params : dds_params_t :=
  { Width := 0, Height := 0, BaseWidth := 0, BaseHeight := 0,
    MaxMipLevels := 0, ArraySize := 2, Format := data.DXGI_FORMAT_UNKNOWN,
    AlphaMode := data.DDS_ALPHA_MODE_UNKNOWN,
    Mipmaps := true, Cubemap := false, Volume := false, ForcePow2 := false,
    SourceCount := 2, SourceIndex := 1 }

/-- Two 4x4 array element sources that decode successfully. -/
def array_srcs_4x4 : List (Option image_info_t) :=
  [some (img_rgba 4 4), some (img_rgba 4 4)]

/-- The image produced by the LDR decode model for a 2x2 source reported
with 3 channels and re-loaded with 4. -/
def img_c10 : image_info_t :=
  { Width := 2, Height := 2, Channels := 4,
    Format := data.DXGI_FORMAT_R8G8B8A8_UNORM, HDR := false }

/-- Helper: the mip-level resolution step always leaves a count of at
least one. -/
theorem resolve_mip_levels_pos (p : dds_params_t) :
    1 ≤ (resolve_mip_levels p).MaxMipLevels := by
  unfold resolve_mip_levels
  split
  · simp
  · omega

/-- C1: the claim says a block-compressed mip level occupies
`pitch · ⌈h/4⌉` bytes, but `write_image_chain` writes
`dds_pitch(Format, Width) * Height` bytes for every format.  For a
single-level BC3_UNORM 8x8 job the code writes 256 pixel bytes where the
claimed per-surface byte count (and hence the claimed file size
148 + 64 = 212) requires 64. -/
theorem C1_bc_level_bytes_mismatch :
    HEADER_PREFIX_BYTES = 148 ∧
    write_image_chain_bytes (single_image_params data.DXGI_FORMAT_BC3_UNORM 8 8) = 256 ∧
    surface_bytes_spec data.DXGI_FORMAT_BC3_UNORM 8 8 1 = 64 ∧
    write_image_chain_bytes (single_image_params data.DXGI_FORMAT_BC3_UNORM 8 8) ≠
      surface_bytes_spec data.DXGI_FORMAT_BC3_UNORM 8 8 1 := by
  decide

/-- C2: when every step up to and including the initial seek succeeds but
the surface scheduler reports failure (`res = false`, e.g. a source fails
to decode after the output file is open), `main` still exits with
`EXIT_SUCCESS = 0`, because the stored result is never examined; the claim
requires a nonzero exit code. -/
theorem C2_scheduler_failure_exits_zero :
    main_exit true 2 true true true false = EXIT_SUCCESS ∧ EXIT_SUCCESS = 0 := by
  decide

/-- C3: for R8G8B8A8_UNORM and B8G8R8A8_UNORM the switch in
`init_dds_pixelformat` overwrites the initially assigned `DDPF_FOURCC`
with `DDPF_RGB | DDPF_ALPHAPIXELS` (0x41), so the Flags field does not
equal the FOURCC flag as claimed, even though the FourCC field keeps the
value "DX10" and the DXT10 extended header is always written. -/
theorem C3_flags_overwritten_for_legacy_formats :
    (init_dds_pixelformat (single_image_params data.DXGI_FORMAT_R8G8B8A8_UNORM 2 2)).Flags =
      (data.DDPF_RGB ||| data.DDPF_ALPHAPIXELS) ∧
    (init_dds_pixelformat (single_image_params data.DXGI_FORMAT_B8G8R8A8_UNORM 2 2)).Flags =
      (data.DDPF_RGB ||| data.DDPF_ALPHAPIXELS) ∧
    (data.DDPF_RGB ||| data.DDPF_ALPHAPIXELS) ≠ data.DDPF_FOURCC ∧
    (init_dds_pixelformat (single_image_params data.DXGI_FORMAT_R8G8B8A8_UNORM 2 2)).FourCC =
      FOURCC_DX10 := by
  decide

/-- C4 counterexample: for a single-image job without the mipmap flag
(resolved mip count 1, `Mipmaps = false`) the base header's MipMapCount
field is 1, not the 0 the claim requires. -/
theorem C4_counterexample_single_image_levels :
    (single_image_params data.DXGI_FORMAT_R8G8B8A8_UNORM 2 2).Mipmaps = false ∧
    (single_image_params data.DXGI_FORMAT_R8G8B8A8_UNORM 2 2).MaxMipLevels = 1 ∧
    (init_dds_header (single_image_params data.DXGI_FORMAT_R8G8B8A8_UNORM 2 2)).Levels = 1 ∧
    (1 : Nat) ≠ 0 := by
  decide

/-- C4 amended: the base header's MipMapCount field always equals the
job's resolved mip level count (narrowed to uint32), with no special case
for single-level jobs; and every job that reaches header emission has a
resolved count of at least 1 because `modify_params` replaces a zero
count, so the field is never written from an unresolved 0. -/
theorem C4_levels_equal_resolved_count (p : dds_params_t) (mip pow2 : Bool) :
    (init_dds_header p).Levels = u32 p.MaxMipLevels ∧
    1 ≤ (modify_params mip pow2 p).MaxMipLevels := by
  refine ⟨rfl, ?_⟩
  exact resolve_mip_levels_pos _

/-- C5: for a block-compressed format the base header's Pitch field holds
`dds_pitch(Format, Width)` — the byte width of one block row — not the
linear size of the top level.  For BC3_UNORM at 8x8 the code stores 32
while the claimed linear size (pitch times two block rows) is 64, even
though the header flags mark the field as LINEARSIZE. -/
theorem C5_bc_pitch_field_not_linear_size :
    (init_dds_header (single_image_params data.DXGI_FORMAT_BC3_UNORM 8 8)).Pitch = 32 ∧
    (init_dds_header (single_image_params data.DXGI_FORMAT_BC3_UNORM 8 8)).Flags &&&
      data.DDSD_LINEARSIZE ≠ 0 ∧
    data.dds_pitch data.DXGI_FORMAT_BC3_UNORM 8 * ceil_div 8 4 = 64 ∧
    (32 : Nat) ≠ 64 := by
  decide

/-- C6 counterexample: `init_dds_header` assigns `params.SourceCount` to
the Depth field, so a successful non-volume cubemap run over six sources
writes Depth = 6 where the claim requires 1. -/
theorem C6_counterexample_cubemap_depth :
    (write_cubemap_image cube_srcs_ok cubemap_json_params).1 = true ∧
    (write_cubemap_image cube_srcs_ok cubemap_json_params).2.1.Volume = false ∧
    (init_dds_header (write_cubemap_image cube_srcs_ok cubemap_json_params).2.1).Depth = 6 ∧
    (6 : Nat) ≠ 1 := by
  decide

/-- C6 amended: the base header's Depth field always equals the number of
source files (narrowed to uint32).  This is the slice count for volume
jobs, but for non-volume jobs it equals 1 only when there is exactly one
source; multi-source arrays and cubemaps store their source count. -/
theorem C6_depth_equals_source_count (p : dds_params_t) :
    (init_dds_header p).Depth = u32 p.SourceCount :=
  rfl

/-- C7: `write_cubemap_image` has no failure branch when
`load_next_source` fails: a cubemap whose third face image cannot be
decoded is skipped silently, the remaining faces are still written (five
chains emitted instead of six), and the function returns true instead of
aborting the run. -/
theorem C7_cubemap_face_load_failure_ignored :
    (write_cubemap_image cube_srcs_bad_face cubemap_json_params).1 = true ∧
    (write_cubemap_image cube_srcs_bad_face cubemap_json_params).2.2 = 5 ∧
    (5 : Nat) ≠ 6 := by
  decide

/-- C8: for a two-source array job with `Mipmaps = true`,
`MaxMipLevels = 0` and dimensions inherited from the first 4x4 source,
`modify_params` resolves the zero count to 1 from the still-zero (0, 0)
dimensions before any source is loaded, so the in-scheduler resolution
block never fires and the header receives MipMapCount = 1 instead of the
claimed full chain 1 + ⌊log2 max(4,4)⌋ = 3. -/
theorem C8_inherited_dims_full_chain_not_resolved :
    (modify_params false false array_json_params).MaxMipLevels = 1 ∧
    (write_array_image_noncube array_srcs_4x4
        (modify_params false false array_json_params)).1 = true ∧
    (write_array_image_noncube array_srcs_4x4
        (modify_params false false array_json_params)).2.1.Width = 4 ∧
    (write_array_image_noncube array_srcs_4x4
        (modify_params false false array_json_params)).2.1.MaxMipLevels = 1 ∧
    (init_dds_header (write_array_image_noncube array_srcs_4x4
        (modify_params false false array_json_params)).2.1).Levels = 1 ∧
    (1 : Nat) ≠ 1 + Nat.log2 (max 4 4) := by
  refine ⟨by decide, by decide, by decide, by decide, by decide, ?_⟩
  have hlog : Nat.log2 (max 4 4) = 2 := by simp [Nat.log2]
  omega

/-- C9 counterexample: for the packed format R8G8_B8G8_UNORM at width 2
the code computes `((2+1) >> 1) * 4 = 4`, while the claimed formula
`⌈(width+1)/2⌉ · 4 = ⌈3/2⌉ · 4` gives 8. -/
theorem C9_counterexample_packed_width_two :
    data.dds_pitch data.DXGI_FORMAT_R8G8_B8G8_UNORM 2 = 4 ∧
    pitch_spec_literal data.DXGI_FORMAT_R8G8_B8G8_UNORM 2 = 8 ∧
    data.dds_pitch data.DXGI_FORMAT_R8G8_B8G8_UNORM 2 ≠
      pitch_spec_literal data.DXGI_FORMAT_R8G8_B8G8_UNORM 2 := by
  decide

/-- C9 amended: for every format and width the pitch function matches the
specification's case split with the packed clause read as
`⌊(width+1)/2⌋ · 4 = ⌈width/2⌉ · 4`: block-compressed formats give
`max(1, ⌈width/4⌉) · block_bytes`, the two packed formats give
`⌈width/2⌉ · 4`, and all other formats give `⌈width · bpp / 8⌉`. -/
theorem C9_pitch_matches_amended_spec (format width : Nat) :
    data.dds_pitch format width = pitch_spec_amended format width := by
  unfold data.dds_pitch pitch_spec_amended ceil_div
  have h4 : width + 4 - 1 = width + 3 := by omega
  have h2 : width + 2 - 1 = width + 1 := by omega
  have h8 : width * data.dds_bits_per_pixel format + 8 - 1 =
      width * data.dds_bits_per_pixel format + 7 := by omega
  rw [h4, h2, h8, Nat.shiftRight_one]

/-- C10: every successfully loaded LDR source has 1, 2 or 4 channels and
inferred format R8_UNORM, R8G8_UNORM or R8G8B8A8_UNORM; a source whose
first decode reports exactly 3 channels is re-loaded with 4 channels and
given R8G8B8A8_UNORM, so no 3-channel image is ever produced. -/
theorem C10_ldr_channels_and_formats (first : Option (Nat × Nat × Nat))
    (reload4 : Option (Nat × Nat)) (img : image_info_t)
    (h : load_image_ldr first reload4 = some img) :
    (img.Channels = 1 ∨ img.Channels = 2 ∨ img.Channels = 4) ∧
    (img.Format = data.DXGI_FORMAT_R8_UNORM ∨
     img.Format = data.DXGI_FORMAT_R8G8_UNORM ∨
     img.Format = data.DXGI_FORMAT_R8G8B8A8_UNORM) ∧
    (∀ w hh : Nat, first = some (w, hh, 3) →
      img.Channels = 4 ∧ img.Format = data.DXGI_FORMAT_R8G8B8A8_UNORM) ∧
    img.Channels ≠ 3 := by
  match first with
  | none => simp [load_image_ldr] at h
  | some (w, hh, n) =>
    simp only [load_image_ldr] at h
    split at h
    · -- n = 3: the source is re-loaded with four channels.
      cases reload4 with
      | none => simp at h
      | some p4 =>
        obtain ⟨w4, h4⟩ := p4
        simp only [Option.some.injEq] at h
        subst h
        exact ⟨Or.inr (Or.inr rfl), Or.inr (Or.inr rfl), fun _ _ _ => ⟨rfl, rfl⟩, by simp⟩
    · rename_i hn3
      split at h
      · -- n = 1
        simp only [Option.some.injEq] at h
        subst h
        refine ⟨Or.inl rfl, Or.inl rfl, ?_, by simp⟩
        intro w' hh' heq
        simp only [Option.some.injEq, Prod.mk.injEq] at heq
        exact absurd heq.2.2 hn3
      · split at h
        · -- n = 2
          simp only [Option.some.injEq] at h
          subst h
          refine ⟨Or.inr (Or.inl rfl), Or.inr (Or.inl rfl), ?_, by simp⟩
          intro w' hh' heq
          simp only [Option.some.injEq, Prod.mk.injEq] at heq
          exact absurd heq.2.2 hn3
        · split at h
          · -- n = 4
            simp only [Option.some.injEq] at h
            subst h
            refine ⟨Or.inr (Or.inr rfl), Or.inr (Or.inr rfl), ?_, by simp⟩
            intro w' hh' heq
            simp only [Option.some.injEq, Prod.mk.injEq] at heq
            exact absurd heq.2.2 hn3
          · simp at h

/-- C10 witness: the theorem applied to a 2x2 source whose first decode
reports 3 channels. -/
theorem C10_witness :
    (img_c10.Channels = 1 ∨ img_c10.Channels = 2 ∨ img_c10.Channels = 4) ∧
    (img_c10.Format = data.DXGI_FORMAT_R8_UNORM ∨
     img_c10.Format = data.DXGI_FORMAT_R8G8_UNORM ∨
     img_c10.Format = data.DXGI_FORMAT_R8G8B8A8_UNORM) ∧
    (∀ w hh : Nat, (some (2, 2, 3) : Option (Nat × Nat × Nat)) = some (w, hh, 3) →
      img_c10.Channels = 4 ∧ img_c10.Format = data.DXGI_FORMAT_R8G8B8A8_UNORM) ∧
    img_c10.Channels ≠ 3 :=
  C10_ldr_channels_and_formats (some (2, 2, 3)) (some (2, 2)) img_c10 (by decide)
